import Mathlib

/-!
Verification of the pause-menu UI core: a shallow embedding of the
button/text/rectangle pipeline (src/ui/button, src/ui/rectangle.rs,
src/ui/icon.rs, src/ui/text.rs) and the game timer (src/game.rs).

Pixel coordinates, sizes and time values are modelled as rationals; the
source uses f32, whose operations on the small integral values involved
here are exact.  8-bit colour channels are naturals; Rust's `as u8` cast
on a float (saturating, truncating toward zero) is modelled explicitly.
-/

namespace PauseMenu

/-- RGBA colour with 8-bit channels, as glyphon's `Color` accessors
`r()`, `g()`, `b()`, `a()` expose them. -/
structure Color where
  r : ℕ
  g : ℕ
  b : ℕ
  a : ℕ
deriving DecidableEq, Repr

/-- `Color::rgb` sets alpha to 255. -/
def Color.rgb (r g b : ℕ) : Color := ⟨r, g, b, 255⟩

/-- `Color::rgba`. -/
def Color.rgba (r g b a : ℕ) : Color := ⟨r, g, b, a⟩

/-- Rust `as u8` on an f32: saturating cast, truncating toward zero.
Negative inputs go to 0 via `Int.toNat`. -/
def f32ToU8 (q : ℚ) : ℕ := min 255 (Int.toNat ⌊q⌋)

/-- Rust `f32::clamp(lo, hi)`. -/
def clampQ (x lo hi : ℚ) : ℚ := min (max x lo) hi

/-- `ColorExt::darken` from src/ui/button/utils.rs: scale each channel
toward black by the clamped factor; alpha preserved. -/
def Color.darken (c : Color) (factor : ℚ) : Color :=
  let f := clampQ factor 0 1
  Color.rgba (f32ToU8 ((c.r : ℚ) * (1 - f)))
    (f32ToU8 ((c.g : ℚ) * (1 - f)))
    (f32ToU8 ((c.b : ℚ) * (1 - f)))
    c.a

/-- `ColorExt::brighten` from src/ui/button/utils.rs: move each channel
toward white by the clamped factor; alpha preserved. -/
def Color.brighten (c : Color) (factor : ℚ) : Color :=
  let f := clampQ factor 0 1
  Color.rgba (f32ToU8 ((c.r : ℚ) + (255 - (c.r : ℚ)) * f))
    (f32ToU8 ((c.g : ℚ) + (255 - (c.g : ℚ)) * f))
    (f32ToU8 ((c.b : ℚ) + (255 - (c.b : ℚ)) * f))
    c.a

/-- `dpi_scale` from src/ui/button/utils.rs. -/
def dpi_scale (window_height : ℚ) : ℚ := clampQ (window_height / 1080) (7/10) 2

/-- `ButtonAnchor` from src/ui/button/types.rs. -/
inductive ButtonAnchor
  | TopLeft
  | Center
deriving DecidableEq, Repr

/-- `ButtonPosition` from src/ui/button/types.rs. -/
structure ButtonPosition where
  x : ℚ
  y : ℚ
  width : ℚ
  height : ℚ
  anchor : ButtonAnchor
deriving DecidableEq, Repr

/-- `ButtonPosition::new` uses the TopLeft anchor. -/
def ButtonPosition.new (x y width height : ℚ) : ButtonPosition :=
  ⟨x, y, width, height, ButtonAnchor.TopLeft⟩

/-- `ButtonPosition::calculate_actual_position` from src/ui/button/types.rs. -/
def ButtonPosition.calculate_actual_position (p : ButtonPosition) : ℚ × ℚ :=
  let actual_x :=
    match p.anchor with
    | ButtonAnchor.TopLeft => p.x
    | ButtonAnchor.Center => p.x - p.width / 2
  let actual_y :=
    match p.anchor with
    | ButtonAnchor.TopLeft => p.y
    | ButtonAnchor.Center => p.y - p.height / 2
  (actual_x, actual_y)

/-- glyphon font `Style` (Normal/Italic as used by this code). -/
inductive FontStyle
  | Normal
  | Italic
deriving DecidableEq, Repr

/-- glyphon `Weight` is a u16; the code uses NORMAL=400, MEDIUM=500, BOLD=700. -/
def weightNORMAL : ℕ := 400

/-- glyphon `Weight::MEDIUM`. -/
def weightMEDIUM : ℕ := 500

/-- glyphon `Weight::BOLD`. -/
def weightBOLD : ℕ := 700

/-- `TextStyle` from src/ui/text.rs. -/
structure TextStyle where
  font_family : String
  font_size : ℚ
  line_height : ℚ
  color : Color
  weight : ℕ
  style : FontStyle
deriving DecidableEq, Repr

/-- `TextAlign` from src/ui/button/types.rs. -/
inductive TextAlign
  | Left
  | Right
  | Center
deriving DecidableEq, Repr

/-- `ButtonSpacing` from src/ui/button/types.rs. -/
inductive ButtonSpacing
  | Wrap
  | Hbar (proportion : ℚ)
  | Tall (proportion : ℚ)
deriving DecidableEq, Repr

/-- `ButtonStyle` from src/ui/button/types.rs. -/
structure ButtonStyle where
  background_color : Color
  hover_color : Color
  pressed_color : Color
  disabled_color : Color
  border_color : Color
  border_width : ℚ
  corner_radius : ℚ
  padding : ℚ × ℚ
  text_style : TextStyle
  text_align : TextAlign
  spacing : ButtonSpacing
deriving DecidableEq, Repr

/-- `ButtonStyle::default` from src/ui/button/types.rs (scale is
`dpi_scale(1080.0) = 1`). -/
def ButtonStyle.defaultStyle : ButtonStyle :=
  { background_color := Color.rgb 55 65 81
    hover_color := Color.rgb 71 85 105
    pressed_color := Color.rgb 30 41 59
    disabled_color := Color.rgb 148 163 184
    border_color := Color.rgb 71 85 105
    border_width := 1
    corner_radius := 8
    padding := (16, 8)
    text_style :=
      { font_family := "HankenGrotesk"
        font_size := 18 * dpi_scale 1080
        line_height := 20 * dpi_scale 1080
        color := Color.rgb 248 250 252
        weight := weightMEDIUM
        style := FontStyle.Normal }
    text_align := TextAlign.Center
    spacing := ButtonSpacing.Hbar (3/10) }

/-- `ButtonState` from src/ui/button/types.rs. -/
inductive ButtonState
  | Normal
  | Hover
  | Pressed
  | Disabled
deriving DecidableEq, Repr

/-- `Button` from src/ui/button/mod.rs. -/
structure Button where
  id : String
  text : String
  style : ButtonStyle
  position : ButtonPosition
  enabled : Bool
  visible : Bool
  state : ButtonState
  text_id : String
  level_text_id : Option String
  tooltip_text_id : Option String
deriving DecidableEq, Repr

/-- `Button::new` from src/ui/button/mod.rs. -/
def Button.new (id text : String) : Button :=
  { id := id
    text := text
    style := ButtonStyle.defaultStyle
    position := ButtonPosition.new 0 0 200 50
    enabled := true
    visible := true
    state := ButtonState.Normal
    text_id := "button_" ++ id
    level_text_id := none
    tooltip_text_id := none }

/-- `Button::contains_point` from src/ui/button/mod.rs: early-returns
false for invisible or disabled buttons, otherwise point-in-rectangle
on the anchor-resolved bounds. -/
def Button.contains_point (b : Button) (x y : ℚ) : Bool :=
  if !b.visible || !b.enabled then false
  else
    let ap := b.position.calculate_actual_position
    decide (ap.1 ≤ x) && decide (x ≤ ap.1 + b.position.width) &&
      decide (ap.2 ≤ y) && decide (y ≤ ap.2 + b.position.height)

/-- `TimerConfig` from src/game.rs; durations are rational seconds. -/
structure TimerConfig where
  duration : ℚ
  warning_threshold : ℚ
  critical_threshold : ℚ
  normal_color : Color
  warning_color : Color
  critical_color : Color
deriving DecidableEq, Repr

/-- `TimerConfig::default` from src/game.rs. -/
def TimerConfig.defaultConfig : TimerConfig :=
  ⟨60, 30, 15, Color.rgb 100 255 100, Color.rgb 255 255 100, Color.rgb 255 100 100⟩

/-- `GameTimer` from src/game.rs. `Instant`s are absolute rational times,
`Duration`s nonnegative rationals. -/
structure GameTimer where
  start_time : ℚ
  config : TimerConfig
  is_running : Bool
  is_expired : Bool
  paused_at : Option ℚ
  elapsed_paused : ℚ
deriving DecidableEq, Repr

/-- `Instant::duration_since`: time from `earlier` to `now`, saturating
at zero when `earlier` is later. -/
def durationSince (now earlier : ℚ) : ℚ := max 0 (now - earlier)

/-- `Duration::checked_sub`: `none` when the subtrahend is larger. -/
def checkedSub (a b : ℚ) : Option ℚ := if b ≤ a then some (a - b) else none

/-- `GameTimer::new`: not running, nothing accumulated. -/
def GameTimer.new (config : TimerConfig) (now : ℚ) : GameTimer :=
  { start_time := now
    config := config
    is_running := false
    is_expired := false
    paused_at := none
    elapsed_paused := 0 }

/-- `GameTimer::start`: restart the clock and clear pause bookkeeping. -/
def GameTimer.start (s : GameTimer) (now : ℚ) : GameTimer :=
  { s with
    start_time := now
    is_running := true
    is_expired := false
    paused_at := none
    elapsed_paused := 0 }

/-- `GameTimer::pause`: record the pause instant, only while running and
not already paused. -/
def GameTimer.pause (s : GameTimer) (now : ℚ) : GameTimer :=
  if s.is_running && s.paused_at.isNone then { s with paused_at := some now } else s

/-- `GameTimer::resume`: fold the completed pause interval into
`elapsed_paused` (`paused_at.elapsed()` saturates at zero). -/
def GameTimer.resume (s : GameTimer) (now : ℚ) : GameTimer :=
  match s.paused_at with
  | some p =>
    { s with
      paused_at := none
      elapsed_paused := s.elapsed_paused + durationSince now p }
  | none => s

/-- `GameTimer::stop`. -/
def GameTimer.stop (s : GameTimer) : GameTimer := { s with is_running := false }

/-- `GameTimer::reset`. -/
def GameTimer.reset (s : GameTimer) (now : ℚ) : GameTimer :=
  { s with
    start_time := now
    is_expired := false
    paused_at := none
    elapsed_paused := 0 }

/-- Elapsed run time used by `get_remaining_time`: wall-clock time since
start (frozen at `paused_at` while paused) minus accumulated pause time.
`none` models the `Duration` subtraction panicking on underflow, which is
unreachable (see `GameTimer.Reach`). -/
def GameTimer.elapsedRun (s : GameTimer) (now : ℚ) : Option ℚ :=
  match s.paused_at with
  | some p => checkedSub (durationSince p s.start_time) s.elapsed_paused
  | none => checkedSub (durationSince now s.start_time) s.elapsed_paused

/-- `GameTimer::get_remaining_time`: zero when stopped or expired,
otherwise `duration.checked_sub(elapsed).unwrap_or(ZERO)`. -/
def GameTimer.get_remaining_time (s : GameTimer) (now : ℚ) : Option ℚ :=
  if !s.is_running || s.is_expired then some 0
  else (s.elapsedRun now).map (fun e => (checkedSub s.config.duration e).getD 0)

/-- `GameTimer::update`: mark the timer expired when remaining time hits
zero; no-op while stopped or paused. Returns whether expiry just
happened. The `getD 0` only differs from the source on states where the
source would panic, which are unreachable. -/
def GameTimer.update (s : GameTimer) (now : ℚ) : GameTimer × Bool :=
  if !s.is_running || s.paused_at.isSome then (s, false)
  else
    let remaining := (s.get_remaining_time now).getD 0
    let was_expired := s.is_expired
    ({ s with is_expired := decide (remaining = 0) },
      !was_expired && decide (remaining = 0))

/-- States of a `GameTimer` reachable through the public operations, each
invoked at a wall-clock time that never decreases. -/
inductive GameTimer.Reach : GameTimer → ℚ → Prop
  | new (cfg : TimerConfig) (t : ℚ) (h : 0 ≤ cfg.duration) :
      Reach (GameTimer.new cfg t) t
  | wait {s : GameTimer} {t : ℚ} (t2 : ℚ) : Reach s t → t ≤ t2 → Reach s t2
  | start {s : GameTimer} {t : ℚ} : Reach s t → Reach (s.start t) t
  | pause {s : GameTimer} {t : ℚ} : Reach s t → Reach (s.pause t) t
  | resume {s : GameTimer} {t : ℚ} : Reach s t → Reach (s.resume t) t
  | stop {s : GameTimer} {t : ℚ} : Reach s t → Reach s.stop t
  | reset {s : GameTimer} {t : ℚ} : Reach s t → Reach (s.reset t) t
  | update {s : GameTimer} {t : ℚ} : Reach s t → Reach (s.update t).1 t

/-- Timer bookkeeping invariant: the accumulated pause time never exceeds
the wall-clock time since start (frozen at the pause instant while
paused), and the configured duration is a genuine `Duration`. -/
def GameTimer.Inv (s : GameTimer) (t : ℚ) : Prop :=
  0 ≤ s.config.duration ∧ s.start_time ≤ t ∧ 0 ≤ s.elapsed_paused ∧
    (∀ p, s.paused_at = some p →
      s.start_time ≤ p ∧ p ≤ t ∧ s.elapsed_paused ≤ p - s.start_time) ∧
    (s.paused_at = none → s.elapsed_paused ≤ t - s.start_time)

/-- `Rectangle` from src/ui/rectangle.rs; colour is RGBA in [0,1]. -/
structure Rectangle where
  x : ℚ
  y : ℚ
  width : ℚ
  height : ℚ
  color : ℚ × ℚ × ℚ × ℚ
  corner_radius : ℚ
deriving DecidableEq, Repr

/-- `Rectangle::new`: corner radius defaults to 0. -/
def Rectangle.new (x y width height : ℚ) (color : ℚ × ℚ × ℚ × ℚ) : Rectangle :=
  ⟨x, y, width, height, color, 0⟩

/-- `Rectangle::with_corner_radius`. -/
def Rectangle.with_corner_radius (r : Rectangle) (radius : ℚ) : Rectangle :=
  { r with corner_radius := radius }

/-- `Vertex` from src/ui/rectangle.rs (the GPU-facing fields; the
alignment padding is omitted). -/
structure RectVertex where
  position : ℚ × ℚ
  color : ℚ × ℚ × ℚ × ℚ
  uv : ℚ × ℚ
  rect_size : ℚ × ℚ
  corner_radius : ℚ
deriving DecidableEq, Repr, Inhabited

/-- The four vertices `RectangleRenderer::render` builds for one
rectangle: the pixel position is converted to normalized device
coordinates with the y-axis flipped (screen y grows downward). -/
def rectangleVertices (r : Rectangle) (window_width window_height : ℚ) :
    List RectVertex :=
  let x := (r.x / window_width) * 2 - 1
  let y := 1 - (r.y / window_height) * 2
  let width := (r.width / window_width) * 2
  let height := -(r.height / window_height) * 2
  [ { position := (x, y), color := r.color, uv := (0, 0)
      rect_size := (r.width, r.height), corner_radius := r.corner_radius }
  , { position := (x + width, y), color := r.color, uv := (r.width, 0)
      rect_size := (r.width, r.height), corner_radius := r.corner_radius }
  , { position := (x + width, y + height), color := r.color
      uv := (r.width, r.height), rect_size := (r.width, r.height)
      corner_radius := r.corner_radius }
  , { position := (x, y + height), color := r.color, uv := (0, r.height)
      rect_size := (r.width, r.height), corner_radius := r.corner_radius } ]

/-- The six u16 indices for rectangle number `rect_index` (two triangles;
the `as u16` cast wraps). -/
def rectangleIndices (rect_index : ℕ) : List ℕ :=
  let base := (rect_index * 4) % 65536
  [base, base + 1, base + 2, base, base + 2, base + 3]

/-- `RectangleRenderer` from src/ui/rectangle.rs: the pending rectangle
queue, the NDC transform denominators, and the cached GPU buffers keyed
by element count. The GPU pipeline handle is omitted. -/
structure RectangleRenderer where
  rectangles : List Rectangle
  window_width : ℚ
  window_height : ℚ
  cached_vertex_buffer : Option (List RectVertex)
  cached_index_buffer : Option (List ℕ)
  cached_rectangle_count : ℕ
deriving DecidableEq, Repr

/-- `RectangleRenderer::new`: empty queue, 1360×768 window, no cache. -/
def RectangleRenderer.new : RectangleRenderer :=
  { rectangles := []
    window_width := 1360
    window_height := 768
    cached_vertex_buffer := none
    cached_index_buffer := none
    cached_rectangle_count := 0 }

/-- `RectangleRenderer::add_rectangle`. -/
def RectangleRenderer.add_rectangle (s : RectangleRenderer) (r : Rectangle) :
    RectangleRenderer :=
  { s with rectangles := s.rectangles ++ [r] }

/-- `RectangleRenderer::clear_rectangles`: empties the queue and drops
the cached buffers. -/
def RectangleRenderer.clear_rectangles (s : RectangleRenderer) : RectangleRenderer :=
  { s with
    rectangles := []
    cached_vertex_buffer := none
    cached_index_buffer := none
    cached_rectangle_count := 0 }

/-- `RectangleRenderer::resize`: updates the transform denominators and
drops the cached buffers. -/
def RectangleRenderer.resize (s : RectangleRenderer) (width height : ℚ) :
    RectangleRenderer :=
  { s with
    window_width := width
    window_height := height
    cached_vertex_buffer := none
    cached_index_buffer := none
    cached_rectangle_count := 0 }

/-- What one `render` call did with the GPU buffers: nothing (empty
queue), a full rebuild, or reuse of the cached buffers. `missingCache`
marks the source's code path where the counts matched but no cached
buffer exists, which is dead in reachable states. -/
inductive RenderAction
  | nothing
  | rebuilt
  | reused
  | missingCache
deriving DecidableEq, Repr

/-- `RectangleRenderer::render`: early-out on an empty queue; rebuild the
batched vertex/index buffers exactly when the cached element count
differs from the pending count; then draw from the cached buffers. -/
def RectangleRenderer.render (s : RectangleRenderer) :
    RectangleRenderer × RenderAction :=
  if s.rectangles.isEmpty then (s, RenderAction.nothing)
  else
    let need_new_buffers := s.cached_rectangle_count != s.rectangles.length
    let s2 :=
      if need_new_buffers then
        { s with
          cached_vertex_buffer := some ((s.rectangles.map
            (fun r => rectangleVertices r s.window_width s.window_height)).flatten)
          cached_index_buffer := some (((List.range s.rectangles.length).map
            rectangleIndices).flatten)
          cached_rectangle_count := s.rectangles.length }
      else s
    match s2.cached_vertex_buffer, s2.cached_index_buffer with
    | some _, some _ =>
      (s2, if need_new_buffers then RenderAction.rebuilt else RenderAction.reused)
    | _, _ => (s2, RenderAction.missingCache)

/-- Queue a whole list of rectangles with repeated `add_rectangle` calls. -/
def RectangleRenderer.addAll (s : RectangleRenderer) (rs : List Rectangle) :
    RectangleRenderer :=
  rs.foldl (fun acc r => acc.add_rectangle r) s

/-- Rectangle-renderer states reachable through the public operations. -/
inductive RectReach : RectangleRenderer → Prop
  | new : RectReach RectangleRenderer.new
  | add {s : RectangleRenderer} (r : Rectangle) :
      RectReach s → RectReach (s.add_rectangle r)
  | clear {s : RectangleRenderer} : RectReach s → RectReach s.clear_rectangles
  | resize {s : RectangleRenderer} (w h : ℚ) : RectReach s → RectReach (s.resize w h)
  | render {s : RectangleRenderer} : RectReach s → RectReach s.render.1

/-- `Icon` from src/ui/icon.rs. -/
structure Icon where
  x : ℚ
  y : ℚ
  width : ℚ
  height : ℚ
  texture_id : String
deriving DecidableEq, Repr

/-- `IconVertex` from src/ui/icon.rs. -/
structure IconVertex where
  position : ℚ × ℚ
  uv : ℚ × ℚ
deriving DecidableEq, Repr, Inhabited

/-- The four vertices `IconRenderer::render` builds for one icon: the
pixel position is converted to normalized device coordinates without
flipping the y-axis (the source's per-texture grouping and count-keyed
caching parallel the rectangle renderer and do not affect this
conversion). -/
def iconVertices (icon : Icon) (window_width window_height : ℚ) :
    List IconVertex :=
  let x := (icon.x / window_width) * 2 - 1
  let y := (icon.y / window_height) * 2 - 1
  let width := (icon.width / window_width) * 2
  let height := (icon.height / window_height) * 2
  [ { position := (x, y), uv := (0, 0) }
  , { position := (x + width, y), uv := (1, 0) }
  , { position := (x + width, y + height), uv := (1, 1) }
  , { position := (x, y + height), uv := (0, 1) } ]

/-- `TextPosition` from src/ui/text.rs. -/
structure TextPosition where
  x : ℚ
  y : ℚ
  max_width : Option ℚ
  max_height : Option ℚ
deriving DecidableEq, Repr

/-- `TextPosition::default`. -/
def TextPosition.defaultPos : TextPosition := ⟨0, 0, none, none⟩

/-- `TextStyle::default` from src/ui/text.rs. -/
def TextStyle.defaultStyle : TextStyle :=
  { font_family := "DejaVu Sans"
    font_size := 16
    line_height := 20
    color := Color.rgb 255 255 255
    weight := weightNORMAL
    style := FontStyle.Normal }

/-- glyphon `Attrs` as this code builds them: family, weight, style. -/
structure Attrs where
  family : String
  weight : ℕ
  style : FontStyle
deriving DecidableEq, Repr

/-- `TextBuffer` from src/ui/text.rs. The opaque shaped glyphon buffer is
modelled by what the code feeds the shaping backend: the last
`set_metrics`, `set_size` and `set_text` arguments. -/
structure TextBuffer where
  buffer_metrics : ℚ × ℚ
  buffer_size : ℚ × ℚ
  shaped_text : String
  shaped_attrs : Attrs
  style : TextStyle
  position : TextPosition
  scale : ℚ
  visible : Bool
  text_content : String
deriving DecidableEq, Repr

/-- `TextRenderer` from src/ui/text.rs: the id-keyed buffer map, window
size and loaded font names. The GPU atlas/viewport handles are omitted. -/
structure TextRenderer where
  text_buffers : List (String × TextBuffer)
  window_size : ℕ × ℕ
  loaded_fonts : List String
deriving DecidableEq, Repr

/-- First binding for `key` in an association list (`HashMap::get`). -/
def alistGet (key : String) : List (String × TextBuffer) → Option TextBuffer
  | [] => none
  | (k, v) :: rest => if k = key then some v else alistGet key rest

/-- Replace the binding for `key` where present, else append
(`HashMap::insert`). -/
def alistInsert (key : String) (v : TextBuffer) :
    List (String × TextBuffer) → List (String × TextBuffer)
  | [] => [(key, v)]
  | (k, w) :: rest =>
    if k = key then (k, v) :: rest else (k, w) :: alistInsert key v rest

/-- The font-fallback rule shared by `create_text_buffer` and
`update_style`: an unloaded HankenGrotesk request becomes DejaVu Sans. -/
def fontFallback (loaded_fonts : List String) (style : TextStyle) : TextStyle :=
  if !(loaded_fonts.contains style.font_family) &&
      (style.font_family == "HankenGrotesk")
  then { style with font_family := "DejaVu Sans" }
  else style

/-- `TextRenderer::create_text_buffer` from src/ui/text.rs: apply the
font fallback, size the buffer from the position constraints or the
window, shape the text with the style's attributes, and overwrite any
prior buffer under the same id. -/
def TextRenderer.create_text_buffer (tr : TextRenderer) (id text : String)
    (style0 : Option TextStyle) (position0 : Option TextPosition) : TextRenderer :=
  let style1 := style0.getD TextStyle.defaultStyle
  let position := position0.getD TextPosition.defaultPos
  let style := fontFallback tr.loaded_fonts style1
  let width := position.max_width.getD (tr.window_size.1 : ℚ)
  let height := position.max_height.getD (tr.window_size.2 : ℚ)
  let attrs : Attrs := ⟨style.font_family, style.weight, style.style⟩
  let tb : TextBuffer :=
    { buffer_metrics := (style.font_size, style.line_height)
      buffer_size := (width, height)
      shaped_text := text
      shaped_attrs := attrs
      style := style
      position := position
      scale := 1
      visible := true
      text_content := text }
  { tr with text_buffers := alistInsert id tb tr.text_buffers }

/-- `TextRenderer::update_style` from src/ui/text.rs, as a state
transformer paired with its `Result`: an absent id produces the NotFound
error with the state untouched; a present id gets its metrics updated
when they changed, the new style stored, and the buffer re-shaped by
re-applying the new attributes to the stored `text_content`. -/
def TextRenderer.update_style (tr : TextRenderer) (id : String)
    (style0 : TextStyle) : TextRenderer × Except String Unit :=
  match alistGet id tr.text_buffers with
  | none => (tr, Except.error ("Text buffer " ++ id ++ " not found"))
  | some tb0 =>
    let style := fontFallback tr.loaded_fonts style0
    let tb1 :=
      if tb0.style.font_size ≠ style.font_size ∨
          tb0.style.line_height ≠ style.line_height
      then { tb0 with buffer_metrics := (style.font_size, style.line_height) }
      else tb0
    let tb2 := { tb1 with style := style }
    let attrs : Attrs := ⟨tb2.style.font_family, tb2.style.weight, tb2.style.style⟩
    let tb3 := { tb2 with shaped_text := tb2.text_content, shaped_attrs := attrs }
    ({ tr with text_buffers := alistInsert id tb3 tr.text_buffers }, Except.ok ())

/-- The buffer a successful `update_style` stores: content kept, metrics
updated when they changed, re-shaped from `text_content` under the
(fallback-adjusted) new attributes. -/
def updatedBuffer (loaded_fonts : List String) (style : TextStyle)
    (tb : TextBuffer) : TextBuffer :=
  { tb with
    buffer_metrics :=
      if tb.style.font_size ≠ (fontFallback loaded_fonts style).font_size ∨
          tb.style.line_height ≠ (fontFallback loaded_fonts style).line_height
      then ((fontFallback loaded_fonts style).font_size,
        (fontFallback loaded_fonts style).line_height)
      else tb.buffer_metrics
    style := fontFallback loaded_fonts style
    shaped_text := tb.text_content
    shaped_attrs := ⟨(fontFallback loaded_fonts style).font_family,
      (fontFallback loaded_fonts style).weight,
      (fontFallback loaded_fonts style).style⟩ }

/-- The text-measurement backend: `TextRenderer::measure_text` shapes the
string with glyphon (an external collaborator per the spec) and returns
(left bearing, width, height). It reads only the font system, never the
buffer map, so it is modelled as an oracle parameter. -/
def Measure : Type := String → TextStyle → ℚ × ℚ × ℚ

/-- Replace the button stored under the same id, else append
(`HashMap::insert` keyed by `Button.id`). -/
def buttonsInsert (b : Button) : List Button → List Button
  | [] => [b]
  | b0 :: rest => if b0.id = b.id then b :: rest else b0 :: buttonsInsert b rest

/-- `ButtonManager` from src/ui/button/mod.rs: the widget collection with
insertion order, the shared text renderer, mouse state and the pending
click. The rectangle and icon renderers it also owns never influence
input handling or the text buffers and are tracked by the standalone
`RectangleRenderer`/`iconVertices` development above. -/
structure ButtonManager where
  buttons : List Button
  button_order : List String
  text_renderer : TextRenderer
  window_size : ℕ × ℕ
  mouse_position : ℚ × ℚ
  mouse_pressed : Bool
  just_clicked : Option String
  last_mouse_position : ℚ × ℚ
  last_mouse_pressed : Bool
deriving DecidableEq, Repr

/-- `ButtonManager::add_button` from src/ui/button/mod.rs: measure the
label, derive the widget size from the spacing mode, resolve the anchor,
create the primary text buffer — coloured `background_color.darken(0.35)`
— plus the optional level and tooltip buffers, and store the sized
button. -/
def ButtonManager.add_button (m : ButtonManager) (measure : Measure)
    (button : Button) : ButtonManager :=
  let text_id := button.text_id
  let text := button.text
  let style := button.style
  let button_id := button.id
  let horizontal_padding := style.padding.1
  let vertical_padding := style.padding.2
  let window_width : ℚ := (m.window_size.1 : ℚ)
  let measured := measure text style.text_style
  let text_width := measured.2.1
  let text_height := measured.2.2
  let sizes :=
    match style.spacing with
    | ButtonSpacing.Wrap =>
      (text_width + 2 * vertical_padding, text_height + 2 * vertical_padding)
    | ButtonSpacing.Hbar prop =>
      (window_width * prop, text_height + 2 * vertical_padding)
    | ButtonSpacing.Tall height_proportion =>
      (if button.position.width > 0 then button.position.width
        else text_width + 2 * vertical_padding,
       (m.window_size.2 : ℚ) * height_proportion)
  let button_width := sizes.1
  let button_height := sizes.2
  let button_with_size := { button with position :=
    { button.position with width := button_width, height := button_height } }
  let actual := button_with_size.position.calculate_actual_position
  let actual_x := actual.1
  let actual_y := actual.2
  let text_x :=
    match style.text_align with
    | TextAlign.Left => actual_x + horizontal_padding
    | TextAlign.Right => actual_x + button_width - horizontal_padding - text_width
    | TextAlign.Center => actual_x + (button_width - text_width) / 2
  let text_y := actual_y + vertical_padding
  let text_position : TextPosition :=
    { x := text_x
      y := text_y
      max_width := some (button_width - 2 * horizontal_padding)
      max_height := some (button_height - 2 * vertical_padding) }
  let tr1 := m.text_renderer.create_text_buffer text_id text
    (some { style.text_style with color := style.background_color.darken (35/100) })
    (some text_position)
  let tr2 :=
    match button.level_text_id with
    | some level_id =>
      let level_style :=
        { style.text_style with
          font_size := style.text_style.font_size * (7/10)
          line_height := style.text_style.line_height * (7/10)
          style := FontStyle.Italic
          color := style.background_color.darken (35/100) }
      let level_text := "Level 1"
      let lm := measure level_text level_style
      let level_text_width := lm.2.1
      let level_text_height := lm.2.2
      let level_text_x :=
        match style.text_align with
        | TextAlign.Left => actual_x + horizontal_padding
        | TextAlign.Right =>
          actual_x + button_width - horizontal_padding - level_text_width
        | TextAlign.Center => actual_x + (button_width - level_text_width) / 2
      let level_text_y := actual_y + button_height * (11/20)
      let level_text_position : TextPosition :=
        { x := level_text_x
          y := level_text_y
          max_width := some (button_width - 2 * horizontal_padding)
          max_height := some level_text_height }
      tr1.create_text_buffer level_id level_text (some level_style)
        (some level_text_position)
    | none => tr1
  let tr3 :=
    match button.tooltip_text_id with
    | some tooltip_id =>
      let tooltip_style :=
        { style.text_style with
          font_size := style.text_style.font_size * (11/20)
          line_height := style.text_style.font_size * (11/20) * (21/20)
          style := FontStyle.Normal
          color := style.background_color.darken (35/100) }
      let tooltip_text := "This is a place to describe an upgrade, and what effects it has on the game in a little more detail."
      let extra_tooltip_padding : ℚ := 10
      let tooltip_horizontal_padding := horizontal_padding + extra_tooltip_padding
      let tooltip_text_x :=
        match style.text_align with
        | TextAlign.Left => actual_x + tooltip_horizontal_padding
        | TextAlign.Right => actual_x + button_width - tooltip_horizontal_padding
        | TextAlign.Center => actual_x + tooltip_horizontal_padding
      let tooltip_text_y := actual_y + button_height * (17/25)
      let tooltip_text_position : TextPosition :=
        { x := tooltip_text_x
          y := tooltip_text_y
          max_width := some (button_width - 2 * tooltip_horizontal_padding)
          max_height := some (button_height * (7/25)) }
      tr2.create_text_buffer tooltip_id tooltip_text (some tooltip_style)
        (some tooltip_text_position)
    | none => tr2
  let new_order :=
    if m.button_order.contains button_id then m.button_order
    else m.button_order ++ [button_id]
  { m with
    text_renderer := tr3
    button_order := new_order
    buttons := buttonsInsert button_with_size m.buttons }

/-- Per-button state recomputation inside
`ButtonManager::update_button_states`: invisible or disabled widgets drop
to Disabled; otherwise the state follows the hit test and the mouse
button. The accompanying writes of derived text styles and positions
into the text renderer (via `update_style`/`update_position`) never feed
back into any button or click field and are not tracked here. -/
def updateButtonState (pos : ℚ × ℚ) (pressed : Bool) (b : Button) : Button :=
  if !b.visible || !b.enabled then { b with state := ButtonState.Disabled }
  else
    let is_hovered := b.contains_point pos.1 pos.2
    let new_state :=
      if pressed && is_hovered then ButtonState.Pressed
      else if is_hovered then ButtonState.Hover
      else ButtonState.Normal
    { b with state := new_state }

/-- `ButtonManager::update_button_states`: early-exit when the cached
mouse state is unchanged, otherwise cache it and recompute every
button's state. -/
def ButtonManager.update_button_states (m : ButtonManager) : ButtonManager :=
  if m.mouse_position = m.last_mouse_position ∧ m.mouse_pressed = m.last_mouse_pressed
  then m
  else
    { m with
      last_mouse_position := m.mouse_position
      last_mouse_pressed := m.mouse_pressed
      buttons := m.buttons.map (updateButtonState m.mouse_position m.mouse_pressed) }

/-- The `WindowEvent`s `ButtonManager::handle_input` consults for click
handling (left mouse button only). The `Resized` arm, which re-runs the
text-layout pass `update_button_positions`, and all other events fall
outside the click claims. -/
inductive InputEvent
  | mousePressed
  | mouseReleased
  | cursorMoved (position : ℚ × ℚ)
deriving DecidableEq, Repr

/-- `ButtonManager::handle_input` from src/ui/button/mod.rs: press sets
the flag and re-evaluates; release surfaces a click for the first
visible, enabled widget left in the Pressed state, then clears the flag
and re-evaluates; cursor motion updates the position and re-evaluates. -/
def ButtonManager.handle_input (m : ButtonManager) (event : InputEvent) :
    ButtonManager :=
  match event with
  | InputEvent.mousePressed =>
    ({ m with mouse_pressed := true }).update_button_states
  | InputEvent.mouseReleased =>
    let m2 :=
      match m.buttons.find? (fun b => b.visible && b.enabled &&
          (b.state == ButtonState.Pressed)) with
      | some b => { m with just_clicked := some b.id }
      | none => m
    ({ m2 with mouse_pressed := false }).update_button_states
  | InputEvent.cursorMoved p =>
    ({ m with mouse_position := p }).update_button_states

/-- `ButtonManager::is_button_clicked`: consume the pending click when it
matches `id` (the source's logging has no state effect). -/
def ButtonManager.is_button_clicked (m : ButtonManager) (id : String) :
    Bool × ButtonManager :=
  match m.just_clicked with
  | some clicked_id =>
    if clicked_id = id then (true, { m with just_clicked := none }) else (false, m)
  | none => (false, m)

/-- A one-button manager used to exercise the click pipeline on concrete
input: the default 200×50 button at the origin, mouse up, no pending
click. -/
def clickDemoManager : ButtonManager :=
  { buttons := [Button.new "resume" "Resume"]
    button_order := ["resume"]
    text_renderer := ⟨[], (800, 600), []⟩
    window_size := (800, 600)
    mouse_position := (0, 0)
    mouse_pressed := false
    just_clicked := none
    last_mouse_position := (0, 0)
    last_mouse_pressed := false }

/-- Clamping a rational to [0,1] is idempotent. -/
theorem clampQ01_idem (f : ℚ) : clampQ (clampQ f 0 1) 0 1 = clampQ f 0 1 := by
  have h0 : (0 : ℚ) ≤ min (max f 0) 1 := le_min (le_max_right f 0) zero_le_one
  have h1 : min (max f 0) 1 ≤ (1 : ℚ) := min_le_right _ _
  simp only [clampQ]
  rw [max_eq_left h0, min_eq_left h1]

/-- Casting a channel value that is ≤ 255 through the float-to-u8 cast is
the identity. -/
theorem f32ToU8_natCast (n : ℕ) (h : n ≤ 255) : f32ToU8 (n : ℚ) = n := by
  simp [f32ToU8, Int.floor_natCast, h, min_eq_right]

/-- C1: `calculate_actual_position` returns `(x, y)` for the TopLeft anchor
and `(x - width/2, y - height/2)` for the Center anchor. -/
theorem calculate_actual_position_spec (p : ButtonPosition) :
    (p.anchor = ButtonAnchor.TopLeft →
      p.calculate_actual_position = (p.x, p.y)) ∧
    (p.anchor = ButtonAnchor.Center →
      p.calculate_actual_position = (p.x - p.width / 2, p.y - p.height / 2)) := by
  constructor <;> intro h <;> simp [ButtonPosition.calculate_actual_position, h]

/-- Witness for C1 at concrete TopLeft and Center positions. -/
theorem calculate_actual_position_spec_witness :
    (ButtonPosition.new 10 20 100 40).calculate_actual_position = (10, 20) ∧
    (ButtonPosition.mk 50 60 100 40 ButtonAnchor.Center).calculate_actual_position
      = (50 - 100 / 2, 60 - 40 / 2) := by
  refine ⟨(calculate_actual_position_spec (ButtonPosition.new 10 20 100 40)).1 rfl, ?_⟩
  exact (calculate_actual_position_spec
    (ButtonPosition.mk 50 60 100 40 ButtonAnchor.Center)).2 rfl

/-- C6: `darken(c, 0) = c`, `darken(c, 1)` is black with alpha preserved,
`brighten(c, 0) = c`, `brighten(c, 1)` is white with alpha preserved, and
any factor behaves as its clamp to [0,1]. -/
theorem darken_brighten_endpoints_clamp (c : Color) (f : ℚ)
    (hr : c.r ≤ 255) (hg : c.g ≤ 255) (hb : c.b ≤ 255) :
    c.darken 0 = c ∧ c.darken 1 = Color.rgba 0 0 0 c.a ∧
    c.brighten 0 = c ∧ c.brighten 1 = Color.rgba 255 255 255 c.a ∧
    c.darken f = c.darken (clampQ f 0 1) ∧
    c.brighten f = c.brighten (clampQ f 0 1) := by
  have hc0 : clampQ (0 : ℚ) 0 1 = 0 := by simp [clampQ]
  have hc1 : clampQ (1 : ℚ) 0 1 = 1 := by simp [clampQ]
  refine ⟨?_, ?_, ?_, ?_, ?_, ?_⟩
  · simp [Color.darken, hc0, f32ToU8_natCast, hr, hg, hb, Color.rgba]
  · simp [Color.darken, hc1, f32ToU8]
  · simp [Color.brighten, hc0, f32ToU8_natCast, hr, hg, hb, Color.rgba]
  · have h255 : ∀ n : ℕ, (n : ℚ) + (255 - (n : ℚ)) * 1 = 255 := by intro n; ring
    simp [Color.brighten, hc1, h255]
    norm_num [f32ToU8]
  · simp [Color.darken, clampQ01_idem]
  · simp [Color.brighten, clampQ01_idem]

/-- Witness for C6 at the default background colour and factor 3. -/
theorem darken_brighten_endpoints_clamp_witness :
    (Color.rgb 55 65 81).darken 0 = Color.rgb 55 65 81 ∧
    (Color.rgb 55 65 81).darken 1 = Color.rgba 0 0 0 255 ∧
    (Color.rgb 55 65 81).brighten 0 = Color.rgb 55 65 81 ∧
    (Color.rgb 55 65 81).brighten 1 = Color.rgba 255 255 255 255 ∧
    (Color.rgb 55 65 81).darken 3 = (Color.rgb 55 65 81).darken (clampQ 3 0 1) ∧
    (Color.rgb 55 65 81).brighten 3 = (Color.rgb 55 65 81).brighten (clampQ 3 0 1) :=
  darken_brighten_endpoints_clamp (Color.rgb 55 65 81) 3
    (by decide) (by decide) (by decide)

/-- C7: `contains_point` is false for any point whenever the button is
invisible or disabled, regardless of its geometry. -/
theorem contains_point_false_of_hidden_or_disabled (b : Button) (x y : ℚ)
    (h : b.visible = false ∨ b.enabled = false) :
    b.contains_point x y = false := by
  rcases h with h | h <;> simp [Button.contains_point, h]

/-- Witness for C7: a disabled button does not contain its own centre. -/
theorem contains_point_false_witness :
    ({ Button.new "resume" "Resume" with enabled := false }).contains_point 100 25
      = false :=
  contains_point_false_of_hidden_or_disabled
    { Button.new "resume" "Resume" with enabled := false } 100 25 (Or.inr rfl)

theorem GameTimer.reach_inv {s : GameTimer} {t : ℚ} (h : GameTimer.Reach s t) :
    s.Inv t := by
  induction h with
  | new cfg t h =>
    simp [GameTimer.Inv, GameTimer.new, h]
  | @wait s t t2 _ hle ih =>
    obtain ⟨hd, hst, hep, hsome, hnone⟩ := ih
    refine ⟨hd, hst.trans hle, hep, ?_, ?_⟩
    · intro p hp
      obtain ⟨h1, h2, h3⟩ := hsome p hp
      exact ⟨h1, h2.trans hle, h3⟩
    · intro hp
      have := hnone hp
      linarith
  | @start s t _ ih =>
    obtain ⟨hd, _, _, _, _⟩ := ih
    simp [GameTimer.Inv, GameTimer.start, hd]
  | @pause s t _ ih =>
    obtain ⟨hd, hst, hep, hsome, hnone⟩ := ih
    by_cases hc : (s.is_running && s.paused_at.isNone) = true
    · have hpn : s.paused_at = none := by
        have h2 := (Bool.and_eq_true _ _).mp hc
        exact Option.isNone_iff_eq_none.mp h2.2
      have hb := hnone hpn
      simp [GameTimer.Inv, GameTimer.pause, hc, hd, hst, hep, hb]
    · simpa [GameTimer.Inv, GameTimer.pause, hc] using ⟨hd, hst, hep, hsome, hnone⟩
  | @resume s t _ ih =>
    obtain ⟨hd, hst, hep, hsome, hnone⟩ := ih
    cases hpa : s.paused_at with
    | none =>
      have hres : s.resume t = s := by simp [GameTimer.resume, hpa]
      rw [hres]
      exact ⟨hd, hst, hep, hsome, hnone⟩
    | some p =>
      obtain ⟨hsp, hpt, hepb⟩ := hsome p hpa
      have hmax : durationSince t p = t - p := by
        simp [durationSince, max_eq_right (sub_nonneg.mpr hpt)]
      have h1 : (0 : ℚ) ≤ s.elapsed_paused + (t - p) := by linarith
      have h2 : s.elapsed_paused + (t - p) ≤ t - s.start_time := by linarith
      simp [GameTimer.Inv, GameTimer.resume, hpa, hmax, hd, hst, h1, h2]
  | @stop s t _ ih =>
    obtain ⟨hd, hst, hep, hsome, hnone⟩ := ih
    simpa [GameTimer.Inv, GameTimer.stop] using ⟨hd, hst, hep, hsome, hnone⟩
  | @reset s t _ ih =>
    obtain ⟨hd, _, _, _, _⟩ := ih
    simp [GameTimer.Inv, GameTimer.reset, hd]
  | @update s t _ ih =>
    obtain ⟨hd, hst, hep, hsome, hnone⟩ := ih
    by_cases hc : (!s.is_running || s.paused_at.isSome) = true
    · simpa [GameTimer.Inv, GameTimer.update, hc] using ⟨hd, hst, hep, hsome, hnone⟩
    · simpa [GameTimer.Inv, GameTimer.update, hc] using ⟨hd, hst, hep, hsome, hnone⟩

/-- A checked subtraction with zero fallback never exceeds the minuend. -/
theorem checkedSub_getD_le (d e : ℚ) (hd : 0 ≤ d) (he : 0 ≤ e) :
    (checkedSub d e).getD 0 ≤ d := by
  by_cases hle : e ≤ d
  · simp only [checkedSub, if_pos hle, Option.getD_some]
    linarith
  · simp [checkedSub, hle, hd]

/-- C10: on every reachable timer state, `get_remaining_time` evaluates
without panicking, never exceeds the configured duration, and is exactly
zero whenever the timer is stopped or expired. -/
theorem get_remaining_time_le_duration {s : GameTimer} {t : ℚ}
    (h : GameTimer.Reach s t) :
    ∃ r, s.get_remaining_time t = some r ∧ r ≤ s.config.duration ∧
      ((s.is_running = false ∨ s.is_expired = true) → r = 0) := by
  obtain ⟨hd, hst, hep, hsome, hnone⟩ := GameTimer.reach_inv h
  by_cases hc : (!s.is_running || s.is_expired) = true
  · exact ⟨0, by simp [GameTimer.get_remaining_time, hc], hd, fun _ => rfl⟩
  · have hcf : (!s.is_running || s.is_expired) = false := by
      simpa using hc
    have hrun : s.is_running = true := by
      have h1 := (Bool.or_eq_false_iff.mp hcf).1
      simpa using h1
    have hexp : s.is_expired = false := (Bool.or_eq_false_iff.mp hcf).2
    have helapsed : ∃ e, s.elapsedRun t = some e ∧ 0 ≤ e := by
      cases hpa : s.paused_at with
      | some p =>
        obtain ⟨hsp, hpt, hepb⟩ := hsome p hpa
        have hds : durationSince p s.start_time = p - s.start_time := by
          simp [durationSince, max_eq_right, sub_nonneg.mpr hsp]
        refine ⟨p - s.start_time - s.elapsed_paused, ?_, by linarith⟩
        simp [GameTimer.elapsedRun, hpa, hds, checkedSub, hepb]
      | none =>
        have hb := hnone hpa
        have hds : durationSince t s.start_time = t - s.start_time := by
          simp [durationSince, max_eq_right, sub_nonneg.mpr hst]
        refine ⟨t - s.start_time - s.elapsed_paused, ?_, by linarith⟩
        simp [GameTimer.elapsedRun, hpa, hds, checkedSub, hb]
    obtain ⟨e, he, he0⟩ := helapsed
    refine ⟨(checkedSub s.config.duration e).getD 0, ?_,
      checkedSub_getD_le _ _ hd he0, ?_⟩
    · simp [GameTimer.get_remaining_time, hc, he]
    · intro habs
      rcases habs with habs | habs
      · rw [hrun] at habs; cases habs
      · rw [hexp] at habs; cases habs

/-- Witness for C10 on a concrete reachable state: a fresh default timer
at time 0. -/
theorem get_remaining_time_le_duration_witness :
    ∃ r, (GameTimer.new TimerConfig.defaultConfig 0).get_remaining_time 0 = some r ∧
      r ≤ (GameTimer.new TimerConfig.defaultConfig 0).config.duration ∧
      (((GameTimer.new TimerConfig.defaultConfig 0).is_running = false ∨
        (GameTimer.new TimerConfig.defaultConfig 0).is_expired = true) → r = 0) :=
  get_remaining_time_le_duration
    (GameTimer.Reach.new TimerConfig.defaultConfig 0 (by norm_num [TimerConfig.defaultConfig]))

/-- C9: a timer started with a 60-second duration, paused 10 seconds of
wall-clock time after start and resumed 5 seconds later, reads exactly 50
seconds remaining immediately after the resume: the paused interval is
excluded from the elapsed-time accounting. -/
theorem pause_excludes_paused_interval (cfg : TimerConfig) (t0 : ℚ)
    (hdur : cfg.duration = 60) :
    ((((GameTimer.new cfg t0).start t0).pause (t0 + 10)).resume (t0 + 15)).get_remaining_time
      (t0 + 15) = some 50 := by
  have h5 : t0 + 15 - (t0 + 10) = 5 := by ring
  have h15 : t0 + 15 - t0 = 15 := by ring
  simp [GameTimer.new, GameTimer.start, GameTimer.pause, GameTimer.resume,
    GameTimer.get_remaining_time, GameTimer.elapsedRun, durationSince,
    checkedSub, hdur, h5, h15]
  norm_num

/-- Witness for C9 with the default 60-second config started at time 0. -/
theorem pause_excludes_paused_interval_witness :
    ((((GameTimer.new TimerConfig.defaultConfig 0).start 0).pause 10).resume 15).get_remaining_time
      15 = some 50 := by
  have := pause_excludes_paused_interval TimerConfig.defaultConfig 0 rfl
  norm_num at this
  exact this

/-- Cache-shape invariant: a cached buffer exists exactly when the cached
element count is nonzero. -/
theorem rectReach_cache_shape {s : RectangleRenderer} (h : RectReach s) :
    (s.cached_vertex_buffer.isSome = true ↔ s.cached_rectangle_count ≠ 0) ∧
    (s.cached_index_buffer.isSome = true ↔ s.cached_rectangle_count ≠ 0) := by
  induction h with
  | new => simp [RectangleRenderer.new]
  | add r _ ih => simpa [RectangleRenderer.add_rectangle] using ih
  | clear _ ih => simp [RectangleRenderer.clear_rectangles]
  | resize w h _ ih => simp [RectangleRenderer.resize]
  | @render s _ ih =>
    by_cases hemp : s.rectangles.isEmpty
    · simpa [RectangleRenderer.render, hemp] using ih
    · have hlen : s.rectangles.length ≠ 0 := by
        simpa [List.isEmpty_iff_length_eq_zero] using hemp
      by_cases hneq : (s.cached_rectangle_count != s.rectangles.length) = true
      · simp [RectangleRenderer.render, hemp, hneq, hlen]
      · have heq : s.cached_rectangle_count = s.rectangles.length := by
          simpa using hneq
        have hs1 : s.render.1 = s := by
          rcases hv : s.cached_vertex_buffer with _ | v <;>
            rcases hi : s.cached_index_buffer with _ | i <;>
            simp [RectangleRenderer.render, hemp, hneq, hv, hi]
        rw [hs1]
        exact ih

/-- Pending list and cache fields after queuing a list of rectangles. -/
theorem addAll_fields (rs : List Rectangle) (s : RectangleRenderer) :
    (s.addAll rs).rectangles = s.rectangles ++ rs ∧
    (s.addAll rs).cached_vertex_buffer = s.cached_vertex_buffer ∧
    (s.addAll rs).cached_index_buffer = s.cached_index_buffer ∧
    (s.addAll rs).cached_rectangle_count = s.cached_rectangle_count ∧
    (s.addAll rs).window_width = s.window_width ∧
    (s.addAll rs).window_height = s.window_height := by
  induction rs generalizing s with
  | nil => simp [RectangleRenderer.addAll]
  | cons r rs ih =>
    have h := ih (s.add_rectangle r)
    simpa [RectangleRenderer.addAll, RectangleRenderer.add_rectangle,
      List.foldl_cons] using h

/-- C3: on every reachable rectangle-renderer state with a non-empty
queue, `render` reuses the cached buffers iff the cached count equals the
pending count (and rebuilds iff it differs); after `clear_rectangles` or
`resize` the next `render` with a non-empty queue always rebuilds; and a
second `render` on an unchanged queue reuses the buffers just built. -/
theorem rectangle_cache_count_invariant (s : RectangleRenderer)
    (hreach : RectReach s) :
    (s.rectangles ≠ [] →
      ((s.render.2 = RenderAction.reused ↔
          s.cached_rectangle_count = s.rectangles.length) ∧
        (s.render.2 = RenderAction.rebuilt ↔
          s.cached_rectangle_count ≠ s.rectangles.length))) ∧
    (∀ rs : List Rectangle, rs ≠ [] →
      (s.clear_rectangles.addAll rs).render.2 = RenderAction.rebuilt) ∧
    (∀ w h : ℚ, s.rectangles ≠ [] →
      (s.resize w h).render.2 = RenderAction.rebuilt) ∧
    (s.rectangles ≠ [] → s.render.1.render.2 = RenderAction.reused) := by
  obtain ⟨hv, hi⟩ := rectReach_cache_shape hreach
  refine ⟨?_, ?_, ?_, ?_⟩
  · intro hne
    have hemp : s.rectangles.isEmpty = false := by
      simpa [List.isEmpty_iff] using hne
    have hlen : s.rectangles.length ≠ 0 := by
      simpa [List.isEmpty_iff_length_eq_zero] using hemp
    by_cases hneq : (s.cached_rectangle_count != s.rectangles.length) = true
    · have hne2 : s.cached_rectangle_count ≠ s.rectangles.length := by
        simpa using hneq
      simp [RectangleRenderer.render, hemp, hneq, hne2]
    · have heq : s.cached_rectangle_count = s.rectangles.length := by
        simpa using hneq
      have hcne : s.cached_rectangle_count ≠ 0 := heq ▸ hlen
      obtain ⟨v, hv2⟩ := Option.isSome_iff_exists.mp (hv.mpr hcne)
      obtain ⟨i, hi2⟩ := Option.isSome_iff_exists.mp (hi.mpr hcne)
      simp [RectangleRenderer.render, hemp, hneq, hv2, hi2, heq]
  · intro rs hrs
    obtain ⟨h1, h2, h3, h4, _, _⟩ := addAll_fields rs s.clear_rectangles
    have hrect : (s.clear_rectangles.addAll rs).rectangles = rs := by
      simpa [RectangleRenderer.clear_rectangles] using h1
    have hcount : (s.clear_rectangles.addAll rs).cached_rectangle_count = 0 := by
      simpa [RectangleRenderer.clear_rectangles] using h4
    have hemp : (s.clear_rectangles.addAll rs).rectangles.isEmpty = false := by
      rw [hrect]; simpa [List.isEmpty_iff] using hrs
    have hlen : rs.length ≠ 0 := by
      intro h0; exact hrs (List.length_eq_zero.mp h0)
    have hneq : ((s.clear_rectangles.addAll rs).cached_rectangle_count !=
        (s.clear_rectangles.addAll rs).rectangles.length) = true := by
      rw [hcount, hrect]
      simpa using (Ne.symm hlen)
    simp [RectangleRenderer.render, hemp, hneq]
  · intro w h hne
    have hemp : (s.resize w h).rectangles.isEmpty = false := by
      simpa [RectangleRenderer.resize, List.isEmpty_iff] using hne
    have hlen : (s.resize w h).rectangles.length ≠ 0 := by
      simpa [List.isEmpty_iff_length_eq_zero] using hemp
    have hneq : ((s.resize w h).cached_rectangle_count !=
        (s.resize w h).rectangles.length) = true := by
      simp [RectangleRenderer.resize]
      exact Ne.symm (by simpa [RectangleRenderer.resize] using hlen)
    simp [RectangleRenderer.render, hemp, hneq]
  · intro hne
    have hemp : s.rectangles.isEmpty = false := by
      simpa [List.isEmpty_iff] using hne
    have hlen : s.rectangles.length ≠ 0 := by
      simpa [List.isEmpty_iff_length_eq_zero] using hemp
    by_cases hneq : (s.cached_rectangle_count != s.rectangles.length) = true
    · -- first render rebuilds; the rebuilt state reuses
      have hs1 : s.render.1 = { s with
          cached_vertex_buffer := some ((s.rectangles.map
            (fun r => rectangleVertices r s.window_width s.window_height)).flatten)
          cached_index_buffer := some (((List.range s.rectangles.length).map
            rectangleIndices).flatten)
          cached_rectangle_count := s.rectangles.length } := by
        simp [RectangleRenderer.render, hemp, hneq]
      rw [hs1]
      simp [RectangleRenderer.render, hemp]
    · have heq : s.cached_rectangle_count = s.rectangles.length := by
        simpa using hneq
      have hcne : s.cached_rectangle_count ≠ 0 := heq ▸ hlen
      obtain ⟨v, hv2⟩ := Option.isSome_iff_exists.mp (hv.mpr hcne)
      obtain ⟨i, hi2⟩ := Option.isSome_iff_exists.mp (hi.mpr hcne)
      have hs1 : s.render.1 = s := by
        simp [RectangleRenderer.render, hemp, hneq, hv2, hi2]
      rw [hs1]
      simp [RectangleRenderer.render, hemp, hneq, hv2, hi2]

/-- Witness for C3 on a concrete reachable state holding one rectangle. -/
theorem rectangle_cache_count_invariant_witness :
    ((RectangleRenderer.new.add_rectangle
        (Rectangle.new 0 0 10 10 (0, 0, 0, 1))).render.2 = RenderAction.reused ↔
      (RectangleRenderer.new.add_rectangle
        (Rectangle.new 0 0 10 10 (0, 0, 0, 1))).cached_rectangle_count =
      (RectangleRenderer.new.add_rectangle
        (Rectangle.new 0 0 10 10 (0, 0, 0, 1))).rectangles.length) ∧
    ((RectangleRenderer.new.add_rectangle
        (Rectangle.new 0 0 10 10 (0, 0, 0, 1))).clear_rectangles.addAll
        [Rectangle.new 0 0 10 10 (0, 0, 0, 1)]).render.2 = RenderAction.rebuilt ∧
    (RectangleRenderer.new.add_rectangle
        (Rectangle.new 0 0 10 10 (0, 0, 0, 1))).render.1.render.2 =
      RenderAction.reused := by
  have hreach : RectReach (RectangleRenderer.new.add_rectangle
      (Rectangle.new 0 0 10 10 (0, 0, 0, 1))) :=
    RectReach.add _ RectReach.new
  have h := rectangle_cache_count_invariant _ hreach
  exact ⟨(h.1 (by simp [RectangleRenderer.add_rectangle, RectangleRenderer.new])).1,
    h.2.1 _ (by simp),
    h.2.2.2 (by simp [RectangleRenderer.add_rectangle, RectangleRenderer.new])⟩

/-- C4: the pixel-to-NDC y conversion is asymmetric between the two
batchers: rectangles flip the y-axis (`1 - 2y/h`), icons do not
(`2y/h - 1`). -/
theorem ndc_y_asymmetry (r : Rectangle) (i : Icon) (w h : ℚ) :
    ((rectangleVertices r w h).headI.position).2 = 1 - 2 * r.y / h ∧
    ((iconVertices i w h).headI.position).2 = 2 * i.y / h - 1 := by
  constructor <;> simp [rectangleVertices, iconVertices, List.headI] <;> ring

/-- Looking up the key just inserted returns the inserted value. -/
theorem alistGet_insert (key : String) (v : TextBuffer)
    (l : List (String × TextBuffer)) : alistGet key (alistInsert key v l) = some v := by
  induction l with
  | nil => simp [alistGet, alistInsert]
  | cons kv rest ih =>
    obtain ⟨k, w⟩ := kv
    by_cases h : k = key <;> simp [alistInsert, alistGet, h, ih]

/-- Inserting under a different key does not change a lookup. -/
theorem alistGet_insert_ne (key key2 : String) (v : TextBuffer)
    (l : List (String × TextBuffer)) (h : key2 ≠ key) :
    alistGet key (alistInsert key2 v l) = alistGet key l := by
  induction l with
  | nil => simp [alistGet, alistInsert, h]
  | cons kv rest ih =>
    obtain ⟨k, w⟩ := kv
    by_cases hk : k = key2
    · subst hk
      simp [alistInsert, alistGet, h]
    · by_cases hk2 : k = key
      · subst hk2
        simp [alistInsert, alistGet, hk]
      · simp [alistInsert, alistGet, hk, hk2, ih]

/-- Explicit form of a successful `update_style`. -/
theorem update_style_eq_of_get (tr : TextRenderer) (id : String)
    (style : TextStyle) (tb : TextBuffer)
    (hsome : alistGet id tr.text_buffers = some tb) :
    tr.update_style id style =
      ({ tr with text_buffers :=
          alistInsert id (updatedBuffer tr.loaded_fonts style tb) tr.text_buffers },
       Except.ok ()) := by
  unfold TextRenderer.update_style updatedBuffer
  rw [hsome]
  by_cases hm : tb.style.font_size ≠ (fontFallback tr.loaded_fonts style).font_size ∨
      tb.style.line_height ≠ (fontFallback tr.loaded_fonts style).line_height <;>
    simp [hm]

/-- C5: `update_style` returns the NotFound error and leaves the engine
state unchanged when the id is absent; when the id exists it succeeds and
re-shapes the buffer from the stored original source string
`text_content`, not from the already-shaped text. -/
theorem update_style_spec (tr : TextRenderer) (id : String) (style : TextStyle) :
    (alistGet id tr.text_buffers = none →
      tr.update_style id style =
        (tr, Except.error ("Text buffer " ++ id ++ " not found"))) ∧
    (∀ tb, alistGet id tr.text_buffers = some tb →
      (tr.update_style id style).2 = Except.ok () ∧
      ∃ tb2, alistGet id (tr.update_style id style).1.text_buffers = some tb2 ∧
        tb2.shaped_text = tb.text_content ∧
        tb2.text_content = tb.text_content ∧
        tb2.style = fontFallback tr.loaded_fonts style) := by
  constructor
  · intro hnone
    simp [TextRenderer.update_style, hnone]
  · intro tb hsome
    rw [update_style_eq_of_get tr id style tb hsome]
    exact ⟨rfl, updatedBuffer tr.loaded_fonts style tb,
      alistGet_insert id _ tr.text_buffers, rfl, rfl, rfl⟩

/-- Witness for C5: a one-buffer engine; an absent id errors without
touching the state, the present id re-shapes from the stored text. -/
theorem update_style_spec_witness :
    ((⟨[], (800, 600), []⟩ : TextRenderer).create_text_buffer "score" "Score: 0"
        none none).update_style "missing" TextStyle.defaultStyle =
      (((⟨[], (800, 600), []⟩ : TextRenderer).create_text_buffer "score" "Score: 0"
        none none), Except.error ("Text buffer " ++ "missing" ++ " not found")) ∧
    (∃ tb2, alistGet "score"
        ((((⟨[], (800, 600), []⟩ : TextRenderer).create_text_buffer "score" "Score: 0"
          none none).update_style "score" TextStyle.defaultStyle).1.text_buffers) = some tb2 ∧
      tb2.shaped_text = "Score: 0") := by
  have h := update_style_spec
    ((⟨[], (800, 600), []⟩ : TextRenderer).create_text_buffer "score" "Score: 0" none none)
    "missing" TextStyle.defaultStyle
  have h2 := update_style_spec
    ((⟨[], (800, 600), []⟩ : TextRenderer).create_text_buffer "score" "Score: 0" none none)
    "score" TextStyle.defaultStyle
  refine ⟨h.1 (by decide), ?_⟩
  have hget : alistGet "score"
      ((⟨[], (800, 600), []⟩ : TextRenderer).create_text_buffer "score" "Score: 0"
        none none).text_buffers =
      some ⟨(16, 20), (800, 600), "Score: 0", ⟨"DejaVu Sans", 400, FontStyle.Normal⟩,
        TextStyle.defaultStyle, TextPosition.defaultPos, 1, true, "Score: 0"⟩ := by
    decide
  obtain ⟨hok, tb2, hget2, hshaped, hcontent, hstyle⟩ := h2.2 _ hget
  exact ⟨tb2, hget2, by rw [hshaped]⟩

/-- Recomputing a button's state touches nothing but the state field. -/
theorem updateButtonState_fields (pos : ℚ × ℚ) (pr : Bool) (b : Button) :
    (updateButtonState pos pr b).id = b.id ∧
    (updateButtonState pos pr b).visible = b.visible ∧
    (updateButtonState pos pr b).enabled = b.enabled := by
  by_cases h : (!b.visible || !b.enabled) = true <;> simp [updateButtonState, h]

/-- State after recomputation for a visible, enabled button. -/
theorem updateButtonState_state_active (pos : ℚ × ℚ) (pr : Bool) (b : Button)
    (hvis : b.visible = true) (hen : b.enabled = true) :
    (updateButtonState pos pr b).state =
      (if pr && b.contains_point pos.1 pos.2 then ButtonState.Pressed
       else if b.contains_point pos.1 pos.2 then ButtonState.Hover
       else ButtonState.Normal) := by
  simp [updateButtonState, hvis, hen]

/-- State after recomputation for a hidden or disabled button. -/
theorem updateButtonState_state_inactive (pos : ℚ × ℚ) (pr : Bool) (b : Button)
    (h : b.visible = false ∨ b.enabled = false) :
    (updateButtonState pos pr b).state = ButtonState.Disabled := by
  rcases h with h | h <;> simp [updateButtonState, h]

/-- Consecutive state recomputations collapse to the last one: the state
written never feeds the hit test or the enabling conditions. -/
theorem updateButtonState_comp (pos pos2 : ℚ × ℚ) (pr pr2 : Bool) (b : Button) :
    updateButtonState pos pr (updateButtonState pos2 pr2 b) =
      updateButtonState pos pr b := by
  by_cases h : (!b.visible || !b.enabled) = true <;>
    simp [updateButtonState, h, Button.contains_point]

/-- `find?` on a list whose only predicate matches are one value. -/
theorem find?_eq_of_unique {α : Type} (l : List α) (p : α → Bool) (v : α)
    (hex : ∃ x ∈ l, p x = true) (huniq : ∀ x ∈ l, p x = true → x = v) :
    l.find? p = some v := by
  induction l with
  | nil => simp at hex
  | cons a rest ih =>
    by_cases ha : p a = true
    · have hav := huniq a (by simp) ha
      subst hav
      simp [List.find?, ha]
    · obtain ⟨x, hx, hpx⟩ := hex
      rcases List.mem_cons.mp hx with hxa | hxr
      · subst hxa; exact absurd hpx ha
      · simp only [List.find?, ha]
        exact ih ⟨x, hxr, hpx⟩ (fun y hy hpy => huniq y (List.mem_cons_of_mem a hy) hpy)

/-- Cursor-move followed by mouse-press, from a mouse-up state: the
manager caches position `p` and the press, and every button's state is
recomputed against `p` with the button held down. -/
theorem press_after_move (m : ButtonManager) (p : ℚ × ℚ)
    (hmp : m.mouse_pressed = false) (hlmp : m.last_mouse_pressed = false) :
    (m.handle_input (InputEvent.cursorMoved p)).handle_input InputEvent.mousePressed =
      { m with
        mouse_position := p
        mouse_pressed := true
        last_mouse_position := p
        last_mouse_pressed := true
        buttons := m.buttons.map (updateButtonState p true) } := by
  have hfun : updateButtonState p true ∘ updateButtonState p false =
      updateButtonState p true :=
    funext fun b => updateButtonState_comp p p true false b
  by_cases hc : p = m.last_mouse_position
  · simp [ButtonManager.handle_input, ButtonManager.update_button_states,
      hmp, hlmp, hc]
  · simp [ButtonManager.handle_input, ButtonManager.update_button_states,
      hmp, hlmp, hc, List.map_map, hfun]

/-- Re-evaluating button states never touches the pending click. -/
theorem update_button_states_just_clicked (m : ButtonManager) :
    m.update_button_states.just_clicked = m.just_clicked := by
  by_cases hc : m.mouse_position = m.last_mouse_position ∧
      m.mouse_pressed = m.last_mouse_pressed <;>
    simp [ButtonManager.update_button_states, hc]

/-- A release surfaces the click of the first visible, enabled widget
still in the Pressed state. -/
theorem handle_release_just_clicked_some (m : ButtonManager) (b' : Button)
    (hf : m.buttons.find? (fun b => b.visible && b.enabled &&
      (b.state == ButtonState.Pressed)) = some b') :
    (m.handle_input InputEvent.mouseReleased).just_clicked = some b'.id := by
  simp [ButtonManager.handle_input, hf, update_button_states_just_clicked]

/-- A release with no pressed widget leaves the pending click alone. -/
theorem handle_release_just_clicked_none (m : ButtonManager)
    (hf : m.buttons.find? (fun b => b.visible && b.enabled &&
      (b.state == ButtonState.Pressed)) = none) :
    (m.handle_input InputEvent.mouseReleased).just_clicked = m.just_clicked := by
  simp [ButtonManager.handle_input, hf, update_button_states_just_clicked]

/-- Cursor motion away from the press position, while the button is held:
position cache moves and every button state is recomputed at the new
position. -/
theorem move_from_pressed (m : ButtonManager) (p q : ℚ × ℚ) (hne : q ≠ p) :
    (({ m with
        mouse_position := p
        mouse_pressed := true
        last_mouse_position := p
        last_mouse_pressed := true
        buttons := m.buttons.map (updateButtonState p true) } : ButtonManager).handle_input
      (InputEvent.cursorMoved q)) =
      { m with
        mouse_position := q
        mouse_pressed := true
        last_mouse_position := q
        last_mouse_pressed := true
        buttons := m.buttons.map (updateButtonState q true) } := by
  have hfun : updateButtonState q true ∘ updateButtonState p true =
      updateButtonState q true :=
    funext fun b => updateButtonState_comp q p true true b
  simp [ButtonManager.handle_input, ButtonManager.update_button_states, hne,
    List.map_map, hfun]

/-- C2: for an enabled, visible widget alone under the cursor, press
inside then release inside yields exactly one click for its id, consumed
idempotently by `is_button_clicked`; press inside, move outside, release
outside yields zero clicks. -/
theorem click_sequencing (m : ButtonManager) (b : Button) (p q : ℚ × ℚ)
    (hb : b ∈ m.buttons)
    (hvis : b.visible = true) (hen : b.enabled = true)
    (hp : b.contains_point p.1 p.2 = true)
    (hothers : ∀ b2 ∈ m.buttons, b2 ≠ b → b2.contains_point p.1 p.2 = false)
    (hq : ∀ b2 ∈ m.buttons, b2.contains_point q.1 q.2 = false)
    (hmp : m.mouse_pressed = false)
    (hlmp : m.last_mouse_pressed = false)
    (hjc : m.just_clicked = none) :
    (((m.handle_input (InputEvent.cursorMoved p)).handle_input
        InputEvent.mousePressed).handle_input InputEvent.mouseReleased).just_clicked
      = some b.id ∧
    ((((m.handle_input (InputEvent.cursorMoved p)).handle_input
        InputEvent.mousePressed).handle_input InputEvent.mouseReleased).is_button_clicked
      b.id).1 = true ∧
    (((((m.handle_input (InputEvent.cursorMoved p)).handle_input
        InputEvent.mousePressed).handle_input InputEvent.mouseReleased).is_button_clicked
      b.id).2.is_button_clicked b.id).1 = false ∧
    ((((m.handle_input (InputEvent.cursorMoved p)).handle_input
        InputEvent.mousePressed).handle_input (InputEvent.cursorMoved q)).handle_input
      InputEvent.mouseReleased).just_clicked = none ∧
    (((((m.handle_input (InputEvent.cursorMoved p)).handle_input
        InputEvent.mousePressed).handle_input (InputEvent.cursorMoved q)).handle_input
      InputEvent.mouseReleased).is_button_clicked b.id).1 = false := by
  have hpress := press_after_move m p hmp hlmp
  have hqp : q ≠ p := by
    intro hqp
    have hcq := hq b hb
    rw [hqp] at hcq
    rw [hp] at hcq
    cases hcq
  have hfind : (m.buttons.map (updateButtonState p true)).find?
      (fun b2 => b2.visible && b2.enabled && (b2.state == ButtonState.Pressed)) =
      some (updateButtonState p true b) := by
    apply find?_eq_of_unique
    · refine ⟨updateButtonState p true b, List.mem_map_of_mem _ hb, ?_⟩
      obtain ⟨hid, hvis2, hen2⟩ := updateButtonState_fields p true b
      simp [hvis2, hen2, hvis, hen,
        updateButtonState_state_active p true b hvis hen, hp]
    · rintro x hx hpx
      obtain ⟨b2, hb2, rfl⟩ := List.mem_map.mp hx
      by_cases hbb : b2 = b
      · rw [hbb]
      · exfalso
        by_cases hact : b2.visible = true ∧ b2.enabled = true
        · have hst := updateButtonState_state_active p true b2 hact.1 hact.2
          rw [hothers b2 hb2 hbb] at hst
          simp only [Bool.and_false, Bool.false_eq_true, if_false] at hst
          simp [hst] at hpx
        · have hio : b2.visible = false ∨ b2.enabled = false := by
            rcases not_and_or.mp hact with h | h
            · left; simpa using h
            · right; simpa using h
          have hst := updateButtonState_state_inactive p true b2 hio
          simp [hst] at hpx
  have hfind2 : (m.buttons.map (updateButtonState q true)).find?
      (fun b2 => b2.visible && b2.enabled && (b2.state == ButtonState.Pressed)) =
      none := by
    rw [List.find?_eq_none]
    rintro x hx
    obtain ⟨b2, hb2, rfl⟩ := List.mem_map.mp hx
    by_cases hact : b2.visible = true ∧ b2.enabled = true
    · have hst := updateButtonState_state_active q true b2 hact.1 hact.2
      rw [hq b2 hb2] at hst
      simp only [Bool.and_false, Bool.false_eq_true, if_false] at hst
      simp [hst]
    · have hio : b2.visible = false ∨ b2.enabled = false := by
        rcases not_and_or.mp hact with h | h
        · left; simpa using h
        · right; simpa using h
      have hst := updateButtonState_state_inactive q true b2 hio
      simp [hst]
  have hj1 : (((m.handle_input (InputEvent.cursorMoved p)).handle_input
      InputEvent.mousePressed).handle_input InputEvent.mouseReleased).just_clicked
      = some b.id := by
    rw [hpress]
    refine Eq.trans (handle_release_just_clicked_some _ _ hfind) ?_
    rw [(updateButtonState_fields p true b).1]
  have hj2 : ((((m.handle_input (InputEvent.cursorMoved p)).handle_input
      InputEvent.mousePressed).handle_input (InputEvent.cursorMoved q)).handle_input
      InputEvent.mouseReleased).just_clicked = none := by
    rw [hpress, move_from_pressed m p q hqp]
    refine Eq.trans (handle_release_just_clicked_none _ hfind2) ?_
    exact hjc
  refine ⟨hj1, ?_, ?_, hj2, ?_⟩
  · simp [ButtonManager.is_button_clicked, hj1]
  · simp [ButtonManager.is_button_clicked, hj1]
  · simp [ButtonManager.is_button_clicked, hj2]

/-- Witness for C2: pressing the demo button at (10,10) and releasing
there clicks exactly once; moving to (300,300) before the release clicks
zero times. -/
theorem click_sequencing_witness :
    (((clickDemoManager.handle_input (InputEvent.cursorMoved (10, 10))).handle_input
        InputEvent.mousePressed).handle_input InputEvent.mouseReleased).just_clicked
      = some "resume" ∧
    ((((clickDemoManager.handle_input (InputEvent.cursorMoved (10, 10))).handle_input
        InputEvent.mousePressed).handle_input InputEvent.mouseReleased).is_button_clicked
      "resume").1 = true ∧
    (((((clickDemoManager.handle_input (InputEvent.cursorMoved (10, 10))).handle_input
        InputEvent.mousePressed).handle_input InputEvent.mouseReleased).is_button_clicked
      "resume").2.is_button_clicked "resume").1 = false ∧
    ((((clickDemoManager.handle_input (InputEvent.cursorMoved (10, 10))).handle_input
        InputEvent.mousePressed).handle_input
        (InputEvent.cursorMoved (300, 300))).handle_input
      InputEvent.mouseReleased).just_clicked = none ∧
    (((((clickDemoManager.handle_input (InputEvent.cursorMoved (10, 10))).handle_input
        InputEvent.mousePressed).handle_input
        (InputEvent.cursorMoved (300, 300))).handle_input
      InputEvent.mouseReleased).is_button_clicked "resume").1 = false :=
  click_sequencing clickDemoManager (Button.new "resume" "Resume") (10, 10) (300, 300)
    (by simp [clickDemoManager]) rfl rfl
    (by norm_num [Button.contains_point, Button.new, ButtonPosition.new,
      ButtonPosition.calculate_actual_position])
    (by intro b2 hb2 hne2
        simp [clickDemoManager] at hb2
        exact absurd hb2 hne2)
    (by intro b2 hb2
        simp [clickDemoManager] at hb2
        subst hb2
        norm_num [Button.contains_point, Button.new, ButtonPosition.new,
          ButtonPosition.calculate_actual_position])
    rfl rfl rfl

/-- The font fallback never touches the colour. -/
theorem fontFallback_color (lf : List String) (st : TextStyle) :
    (fontFallback lf st).color = st.color := by
  unfold fontFallback
  split <;> rfl

/-- The buffer `create_text_buffer` stores under its id keeps the
requested colour and text. -/
theorem create_text_buffer_get (tr : TextRenderer) (id text : String)
    (st : Option TextStyle) (pos : Option TextPosition) :
    ∃ tb, alistGet id (tr.create_text_buffer id text st pos).text_buffers = some tb ∧
      tb.style.color = (st.getD TextStyle.defaultStyle).color ∧
      tb.text_content = text := by
  refine ⟨_, alistGet_insert id _ tr.text_buffers, ?_, rfl⟩
  exact fontFallback_color tr.loaded_fonts (st.getD TextStyle.defaultStyle)

/-- `create_text_buffer` leaves buffers under other ids untouched. -/
theorem create_text_buffer_get_ne (tr : TextRenderer) (id id2 text : String)
    (st : Option TextStyle) (pos : Option TextPosition) (h : id ≠ id2) :
    alistGet id2 (tr.create_text_buffer id text st pos).text_buffers =
      alistGet id2 tr.text_buffers :=
  alistGet_insert_ne id2 id _ tr.text_buffers h

/-- C8 (amended): `add_button` creates the primary text buffer with
colour `background_color.darken(0.35)` — alpha preserved from the
background, not transparent. -/
theorem add_button_primary_color (m : ButtonManager) (measure : Measure)
    (button : Button)
    (hlv : ∀ lid, button.level_text_id = some lid → lid ≠ button.text_id)
    (htt : ∀ tid, button.tooltip_text_id = some tid → tid ≠ button.text_id) :
    ∃ tb, alistGet button.text_id
        (m.add_button measure button).text_renderer.text_buffers = some tb ∧
      tb.style.color = button.style.background_color.darken (35/100) ∧
      tb.style.color.a = button.style.background_color.a := by
  have halpha : (button.style.background_color.darken (35/100)).a =
      button.style.background_color.a := rfl
  unfold ButtonManager.add_button
  cases hl : button.level_text_id with
  | some lid =>
    cases ht : button.tooltip_text_id with
    | some tid =>
      simp only [hl, ht]
      rw [create_text_buffer_get_ne _ _ _ _ _ _ (htt tid ht),
        create_text_buffer_get_ne _ _ _ _ _ _ (hlv lid hl)]
      obtain ⟨tb, hget, hcol, _⟩ := create_text_buffer_get m.text_renderer
        button.text_id button.text
        (some { button.style.text_style with
          color := button.style.background_color.darken (35/100) }) _
      have hcol2 : tb.style.color = button.style.background_color.darken (35/100) := by
        simpa using hcol
      exact ⟨tb, hget, hcol2, by rw [hcol2]; exact halpha⟩
    | none =>
      simp only [hl, ht]
      rw [create_text_buffer_get_ne _ _ _ _ _ _ (hlv lid hl)]
      obtain ⟨tb, hget, hcol, _⟩ := create_text_buffer_get m.text_renderer
        button.text_id button.text
        (some { button.style.text_style with
          color := button.style.background_color.darken (35/100) }) _
      have hcol2 : tb.style.color = button.style.background_color.darken (35/100) := by
        simpa using hcol
      exact ⟨tb, hget, hcol2, by rw [hcol2]; exact halpha⟩
  | none =>
    cases ht : button.tooltip_text_id with
    | some tid =>
      simp only [hl, ht]
      rw [create_text_buffer_get_ne _ _ _ _ _ _ (htt tid ht)]
      obtain ⟨tb, hget, hcol, _⟩ := create_text_buffer_get m.text_renderer
        button.text_id button.text
        (some { button.style.text_style with
          color := button.style.background_color.darken (35/100) }) _
      have hcol2 : tb.style.color = button.style.background_color.darken (35/100) := by
        simpa using hcol
      exact ⟨tb, hget, hcol2, by rw [hcol2]; exact halpha⟩
    | none =>
      simp only [hl, ht]
      obtain ⟨tb, hget, hcol, _⟩ := create_text_buffer_get m.text_renderer
        button.text_id button.text
        (some { button.style.text_style with
          color := button.style.background_color.darken (35/100) }) _
      have hcol2 : tb.style.color = button.style.background_color.darken (35/100) := by
        simpa using hcol
      exact ⟨tb, hget, hcol2, by rw [hcol2]; exact halpha⟩

/-- C8 counterexample: adding the default-styled "upgrade1" button to a
fresh manager creates its primary text buffer with a fully opaque colour
(alpha 255), not the fully transparent colour the claim states. -/
theorem add_button_transparent_counterexample :
    ∃ tb, alistGet "button_upgrade1"
        ((clickDemoManager.add_button (fun _ _ => (0, 100, 20))
          (Button.new "upgrade1" "Speed")).text_renderer.text_buffers) = some tb ∧
      tb.style.color.a = 255 ∧ ¬ tb.style.color.a = 0 := by
  refine ⟨_, rfl, rfl, by decide⟩

/-- Witness for the amended C8 on the same concrete button. -/
theorem add_button_primary_color_witness :
    ∃ tb, alistGet "button_upgrade1"
        ((clickDemoManager.add_button (fun _ _ => (0, 100, 20))
          (Button.new "upgrade1" "Speed")).text_renderer.text_buffers) = some tb ∧
      tb.style.color =
        (Button.new "upgrade1" "Speed").style.background_color.darken (35/100) ∧
      tb.style.color.a =
        (Button.new "upgrade1" "Speed").style.background_color.a :=
  add_button_primary_color clickDemoManager (fun _ _ => (0, 100, 20))
    (Button.new "upgrade1" "Speed")
    (fun lid h => by simp [Button.new] at h)
    (fun tid h => by simp [Button.new] at h)

end PauseMenu
